import Mathlib

/-!
Shallow embedding of `src/vector_benchmark.cpp`: a Google-Benchmark
comparison of seven strategies for populating a sequence of
`MyStruct { int x, y; }` records, each record `i` built as
`MyStruct(i, i)` from the `size_t` loop index `i`.

The embedding models:
* the record type `MyStruct` and the `size_t → int` narrowing conversion
  applied to the loop index at every construction site;
* the logical collection each variant's timed loop body produces
  (raw-buffer variants as a memory function `Nat → Option MyStruct` filled
  by fold, vector variants as lists);
* per-variant event traces (allocation, per-slot construction/assignment,
  release, the `benchmark::DoNotOptimize` observation) capturing the order
  of effects in each timed loop body;
* the benchmark registrations at the bottom of the file.
-/

set_option autoImplicit false

/-- The record type from the source: `struct MyStruct { int x, y;
MyStruct(int a, int b) : x(a), y(b) {} }`.  The two `int` fields are
modelled as unbounded integers; the narrowing at each call site is modelled
separately by `intOfSizeT`. -/
structure MyStruct where
  x : Int
  y : Int
deriving DecidableEq, Repr

instance : Inhabited MyStruct := ⟨⟨0, 0⟩⟩

/-- C++ conversion of a `size_t` (64-bit unsigned) value to `int` (32-bit
signed two's complement): the result is the unique representative of the
value modulo 2^32 in [-2^31, 2^31).  Every variant applies this conversion
to the loop index `i` when calling `MyStruct(i, i)` (implicitly, or via
`static_cast<int>(i)` in `BM_CBaseline3`). -/
def intOfSizeT (i : Nat) : Int :=
  if i % 2 ^ 32 < 2 ^ 31 then ((i % 2 ^ 32 : Nat) : Int)
  else ((i % 2 ^ 32 : Nat) : Int) - 2 ^ 32

/-- The record each variant builds for index `i`: `MyStruct(i, i)` with the
`size_t` index narrowed to the two `int` constructor arguments. -/
def recordAt (i : Nat) : MyStruct :=
  MyStruct.mk (intOfSizeT i) (intOfSizeT i)

/-! ### Raw uninitialized-buffer model

`new std::byte[sizeof(MyStruct) * N]` yields a block of `N` uninitialized
record slots; we model the block as a function `Nat → Option MyStruct`,
`none` meaning the slot holds no constructed value yet. -/

/-- A manually managed block of record slots. -/
def Buf : Type := Nat → Option MyStruct

/-- Freshly allocated storage: every slot uninitialized. -/
def emptyBuf : Buf := fun _ => none

/-- Placement new, `::new (static_cast<void*>(vec+i)) MyStruct(a, b)`:
constructs the value directly into slot `i`. -/
def placementNew (buf : Buf) (i : Nat) (v : MyStruct) : Buf :=
  fun j => if j = i then some v else buf j

/-- Model of `std::construct_at(vec + i, a, b)`, the C++20 named
construction primitive; per the library specification it performs
`::new (static_cast<void*>(p)) MyStruct(a, b)` at the given address. -/
def construct_at (buf : Buf) (i : Nat) (a b : Int) : Buf :=
  placementNew buf i (MyStruct.mk a b)

/-- Assignment `vec[i] = MyStruct(a, b)`: materialize a temporary record, then
copy-assign it into slot `i`; the implicit memberwise assignment writes
both fields, so the slot afterwards holds exactly the temporary's value
regardless of its previous contents. -/
def assignRecord (buf : Buf) (i : Nat) (tmp : MyStruct) : Buf :=
  fun j => if j = i then some (MyStruct.mk tmp.x tmp.y) else buf j

/-- Reading the `N` slots of a block as the produced collection; `none`
when any slot in range was never written (an uninitialized read). -/
def bufCollection (buf : Buf) (N : Nat) : Option (List MyStruct) :=
  (List.range N).mapM buf

/-! ### The seven variants: produced collection per timed iteration -/

/-- Loop body of `BM_CBaseline`: allocate, then for `i < N` placement-new
`MyStruct(i, i)` into slot `i`. -/
def BM_CBaseline_fill (N : Nat) : Buf :=
  (List.range N).foldl (fun buf i => placementNew buf i (recordAt i)) emptyBuf

/-- The collection `BM_CBaseline` has produced when `delete[]` runs. -/
def BM_CBaseline_collection (N : Nat) : Option (List MyStruct) :=
  bufCollection (BM_CBaseline_fill N) N

/-- Loop body of `BM_CBaseline2`: allocate, then for `i < N` build the
temporary `MyStruct(i, i)` and assign it into slot `i`. -/
def BM_CBaseline2_fill (N : Nat) : Buf :=
  (List.range N).foldl (fun buf i => assignRecord buf i (recordAt i)) emptyBuf

/-- The collection `BM_CBaseline2` has produced when `delete[]` runs. -/
def BM_CBaseline2_collection (N : Nat) : Option (List MyStruct) :=
  bufCollection (BM_CBaseline2_fill N) N

/-- Loop body of `BM_CBaseline3`: allocate, then for `i < N` call
`std.construct_at(vec + i, static_cast<int>(i), static_cast<int>(i))`. -/
def BM_CBaseline3_fill (N : Nat) : Buf :=
  (List.range N).foldl (fun buf i => construct_at buf i (intOfSizeT i) (intOfSizeT i)) emptyBuf

/-- The collection `BM_CBaseline3` has produced when `delete[]` runs. -/
def BM_CBaseline3_collection (N : Nat) : Option (List MyStruct) :=
  bufCollection (BM_CBaseline3_fill N) N

/-- Loop body of `BM_EmplaceBack`: `vec.reserve(N)` then `N` times
`vec.emplace_back(i, i)`, constructing each element in place at the back. -/
def BM_EmplaceBack_run (N : Nat) : List MyStruct :=
  (List.range N).foldl (fun vec i => vec ++ [recordAt i]) []

/-- Loop body of `BM_PushBack`: `vec.reserve(N)` then `N` times build the
local `MyStruct obj(i, i)` and `vec.push_back(obj)` (copy into the back). -/
def BM_PushBack_run (N : Nat) : List MyStruct :=
  (List.range N).foldl (fun vec i => vec ++ [recordAt i]) []

/-- The lazy sequence `std::views::iota(0uz, N)`: the integers `[0, N)`. -/
def iotaView (N : Nat) : List Nat := List.range N

/-- Transform view (`std::views::transform`) over a sequence: elements computed on demand by
the given function; logically the element-wise image. -/
def transformView (f : Nat → MyStruct) (l : List Nat) : List MyStruct := l.map f

/-- Loop body of `BM_FromRange`: `std::vector(std::from_range, iota(0, N) |
transform(λ i. MyStruct(i, i)))` — the container consumes the lazy
sequence directly. -/
def BM_FromRange_run (N : Nat) : List MyStruct :=
  transformView (fun i => MyStruct.mk (intOfSizeT i) (intOfSizeT i)) (iotaView N)

/-- Iterator traversal of the transformed view from `begin` (`cur`) to
`end` (`stop`): dereference computes `f cur` on demand, then the iterator
is advanced, until it compares equal to `end`. -/
def iterCollect (f : Nat → MyStruct) (cur stop : Nat) : List MyStruct :=
  if cur < stop then f cur :: iterCollect f (cur + 1) stop else []
termination_by stop - cur

/-- Loop body of `BM_FromRangeIterators`: `std::vector(begin(range),
end(range))` over the same transformed view. -/
def BM_FromRangeIterators_run (N : Nat) : List MyStruct :=
  iterCollect (fun i => MyStruct.mk (intOfSizeT i) (intOfSizeT i)) 0 N

/-- The reference sequence the spec names:
`[Record(0,0), Record(1,1), ..., Record(N-1,N-1)]`, element `i` holding
the exact (unnarrowed) value `i` in both fields. -/
def specSeq (N : Nat) : List MyStruct :=
  (List.range N).map fun (i : Nat) => MyStruct.mk (i : Int) (i : Int)

/-! ### Event traces of the timed loop bodies

The order of effects in one timed iteration, as written in the source:
allocation of a block of element slots, per-slot construction or
assignment, release of the block (explicit `delete[]`, or the vector
destructor at the end of the loop body), and the
`benchmark::DoNotOptimize` observation. -/

inductive Event where
  /-- Allocation of storage for `n` element slots (`new std::byte[...]`,
  `reserve(N)`, or the vector constructor's buffer). -/
  | allocSlots (n : Nat)
  /-- Slot `i` receives its value by in-place construction. -/
  | construct (i : Nat)
  /-- Slot `i` receives its value by assignment from a temporary. -/
  | assign (i : Nat)
  /-- The block is released (`delete[]` or the vector destructor). -/
  | release
  /-- `benchmark::DoNotOptimize(vec)`. -/
  | observe
deriving DecidableEq, Repr

/-- Trace of `BM_CBaseline`: `new`, placement-construct each slot, `delete[] vec;`,
then `DoNotOptimize(vec);` — the observation follows the release. -/
def BM_CBaseline_trace (N : Nat) : List Event :=
  Event.allocSlots N :: (List.range N).map Event.construct ++ [Event.release, Event.observe]

/-- Trace of `BM_CBaseline2`: `new`, assign each slot from a temporary,
`delete[] vec;`, then `DoNotOptimize(vec);`. -/
def BM_CBaseline2_trace (N : Nat) : List Event :=
  Event.allocSlots N :: (List.range N).map Event.assign ++ [Event.release, Event.observe]

/-- Trace of `BM_CBaseline3`: `new`, `std::construct_at` each slot, `delete[] vec;`,
then `DoNotOptimize(vec);`. -/
def BM_CBaseline3_trace (N : Nat) : List Event :=
  Event.allocSlots N :: (List.range N).map Event.construct ++ [Event.release, Event.observe]

/-- Trace of `BM_EmplaceBack`: `reserve(N)`, emplace each element,
`DoNotOptimize(vec);`, then the vector destructor at end of scope. -/
def BM_EmplaceBack_trace (N : Nat) : List Event :=
  Event.allocSlots N :: (List.range N).map Event.construct ++ [Event.observe, Event.release]

/-- Trace of `BM_PushBack`: `reserve(N)`, copy each temporary into the back,
`DoNotOptimize(vec);`, then the vector destructor at end of scope. -/
def BM_PushBack_trace (N : Nat) : List Event :=
  Event.allocSlots N :: (List.range N).map Event.construct ++ [Event.observe, Event.release]

/-- Trace of `BM_FromRange`: the vector constructor allocates and constructs each
element from the lazy sequence, `DoNotOptimize(vec);`, then the vector
destructor at end of scope. -/
def BM_FromRange_trace (N : Nat) : List Event :=
  Event.allocSlots N :: (List.range N).map Event.construct ++ [Event.observe, Event.release]

/-- Trace of `BM_FromRangeIterators`: the vector iterator-pair constructor
allocates and constructs each element, `DoNotOptimize(vec);`, then the
vector destructor at end of scope. -/
def BM_FromRangeIterators_trace (N : Nat) : List Event :=
  Event.allocSlots N :: (List.range N).map Event.construct ++ [Event.observe, Event.release]

/-- Does the event write a value into element slot `i`? -/
def writesSlot (i : Nat) : Event → Bool
  | Event.construct j => j == i
  | Event.assign j => j == i
  | _ => false

/-- Does the event write a value into some element slot? -/
def isWrite : Event → Bool
  | Event.construct _ => true
  | Event.assign _ => true
  | _ => false

/-- How many element slots the event allocates (0 for non-allocations). -/
def slotsAllocated : Event → Nat
  | Event.allocSlots n => n
  | _ => 0

/-- The block is released exactly once in the trace. -/
def releasedOnce (t : List Event) : Bool :=
  t.count Event.release == 1

/-- No slot write occurs after the (first) release of the block. -/
def noWriteAfterRelease : List Event → Bool
  | [] => true
  | Event.release :: rest => rest.all fun e => !isWrite e
  | _ :: rest => noWriteAfterRelease rest

/-- The `DoNotOptimize` observation occurs while the collection is live:
the first `observe` event precedes any `release` event. -/
def observedLive : List Event → Bool
  | [] => false
  | Event.release :: _ => false
  | Event.observe :: _ => true
  | _ :: rest => observedLive rest

/-! ### Benchmark registrations

`BENCHMARK(BM_x)->Arg(500000)->Repetitions(20);` for the seven variants,
and each variant's `state.SetItemsProcessed(state.iterations() * N)`. -/

structure Registration where
  name : String
  arg : Nat
  repetitions : Nat
deriving DecidableEq, Repr

/-- The seven `BENCHMARK(...)->Arg(500000)->Repetitions(20)` lines, in
source order. -/
def registrations : List Registration :=
  [⟨"BM_FromRange", 500000, 20⟩,
   ⟨"BM_FromRangeIterators", 500000, 20⟩,
   ⟨"BM_EmplaceBack", 500000, 20⟩,
   ⟨"BM_PushBack", 500000, 20⟩,
   ⟨"BM_CBaseline", 500000, 20⟩,
   ⟨"BM_CBaseline2", 500000, 20⟩,
   ⟨"BM_CBaseline3", 500000, 20⟩]

/-- Model of `state.SetItemsProcessed(state.iterations() * N)`: the total item
count each variant reports for throughput computation. -/
def itemsProcessed (iterations N : Nat) : Nat :=
  iterations * N

/-! ### Distinct-instance model (for determinism)

Two executions of the same variant place the produced records at
different addresses; an instance pairs each element with its address,
and the logical collection forgets the addresses. -/

/-- The instance of a produced collection whose buffer starts at address
`base`: element `i` lives at `base + i`. -/
def instanceAt (base : Nat) (l : List MyStruct) : List (Nat × MyStruct) :=
  (List.range l.length).zip l |>.map fun p => (base + p.1, p.2)

/-- The logical (value-only) content of an instance. -/
def logicalValues (inst : List (Nat × MyStruct)) : List MyStruct :=
  inst.map Prod.snd

/-- Is the event a release of the block? -/
def isRelease : Event → Bool
  | Event.release => true
  | _ => false

/-- Is the event an assignment into a slot (as opposed to an in-place
construction)? -/
def isAssign : Event → Bool
  | Event.assign _ => true
  | _ => false

/-- No event in the trace writes a slot, and no event allocates a positive
number of element slots. -/
def noSlotActivity (t : List Event) : Bool :=
  t.all fun e => !isWrite e && slotsAllocated e == 0

/-- Resource discipline of a raw-buffer timed loop body, for item count
`N` and an in-range slot `i`: the block is released exactly once, no slot
is written after the release, slot `i` is written exactly once, and no
out-of-range slot is ever written. -/
def C2TraceOK (t : List Event) (N i : Nat) : Prop :=
  releasedOnce t = true ∧
  noWriteAfterRelease t = true ∧
  t.countP (writesSlot i) = 1 ∧
  ∀ j, N ≤ j → t.countP (writesSlot j) = 0

/-- Functional-correctness bundle for item count `N`: every one of the
seven variants produces exactly the reference sequence
`[Record(0,0), ..., Record(N-1,N-1)]`, which has length `N`, element `i`
equal to `(i, i)`, and at `N = 5` equals `[(0,0),(1,1),(2,2),(3,3),(4,4)]`. -/
def C1Prop (N : Nat) : Prop :=
  BM_CBaseline_collection N = some (specSeq N) ∧
  BM_CBaseline2_collection N = some (specSeq N) ∧
  BM_CBaseline3_collection N = some (specSeq N) ∧
  BM_EmplaceBack_run N = specSeq N ∧
  BM_PushBack_run N = specSeq N ∧
  BM_FromRange_run N = specSeq N ∧
  BM_FromRangeIterators_run N = specSeq N ∧
  (specSeq N).length = N ∧
  (∀ i, i < N → (specSeq N)[i]? = some (MyStruct.mk (i : Int) (i : Int))) ∧
  specSeq 5 =
    [MyStruct.mk 0 0, MyStruct.mk 1 1, MyStruct.mk 2 2, MyStruct.mk 3 3, MyStruct.mk 4 4]

/-- Resource-discipline bundle: `C2TraceOK` for the three raw
uninitialized-buffer variants. -/
def C2Prop (N i : Nat) : Prop :=
  C2TraceOK (BM_CBaseline_trace N) N i ∧
  C2TraceOK (BM_CBaseline2_trace N) N i ∧
  C2TraceOK (BM_CBaseline3_trace N) N i

/-- Determinism bundle for item count `N` and two buffer base addresses:
the logical (value-only) content of the produced instance is the same for
both addresses, for every variant. -/
def C9Prop (N b1 b2 : Nat) : Prop :=
  logicalValues (instanceAt b1 (BM_EmplaceBack_run N)) =
    logicalValues (instanceAt b2 (BM_EmplaceBack_run N)) ∧
  logicalValues (instanceAt b1 (BM_PushBack_run N)) =
    logicalValues (instanceAt b2 (BM_PushBack_run N)) ∧
  logicalValues (instanceAt b1 (BM_FromRange_run N)) =
    logicalValues (instanceAt b2 (BM_FromRange_run N)) ∧
  logicalValues (instanceAt b1 (BM_FromRangeIterators_run N)) =
    logicalValues (instanceAt b2 (BM_FromRangeIterators_run N)) ∧
  (BM_CBaseline_collection N).map (fun l => logicalValues (instanceAt b1 l)) =
    (BM_CBaseline_collection N).map (fun l => logicalValues (instanceAt b2 l)) ∧
  (BM_CBaseline2_collection N).map (fun l => logicalValues (instanceAt b1 l)) =
    (BM_CBaseline2_collection N).map (fun l => logicalValues (instanceAt b2 l)) ∧
  (BM_CBaseline3_collection N).map (fun l => logicalValues (instanceAt b1 l)) =
    (BM_CBaseline3_collection N).map (fun l => logicalValues (instanceAt b2 l))

/-- Narrowing bundle for a loop index `i` within `int` range: the
`size_t → int` conversion is value-preserving at `i`, so the record built
for index `i` carries exactly `(i, i)` in every variant, while the
conversion is not value-preserving at `2^31`. -/
def C10Prop (i : Nat) : Prop :=
  intOfSizeT i = (i : Int) ∧
  recordAt i = MyStruct.mk (i : Int) (i : Int) ∧
  (∀ N, i < N → (BM_EmplaceBack_run N)[i]? = some (MyStruct.mk (i : Int) (i : Int))) ∧
  intOfSizeT (2 ^ 31) ≠ ((2 ^ 31 : Nat) : Int)

/-! ### Helper lemmas about the embedding -/

lemma intOfSizeT_of_lt {i : Nat} (h : i < 2 ^ 31) : intOfSizeT i = (i : Int) := by
  have h32 : i < 2 ^ 32 := lt_trans h (by norm_num)
  unfold intOfSizeT
  rw [Nat.mod_eq_of_lt h32, if_pos h]

lemma recordAt_of_lt {i : Nat} (h : i < 2 ^ 31) :
    recordAt i = MyStruct.mk (i : Int) (i : Int) := by
  simp [recordAt, intOfSizeT_of_lt h]

lemma intOfSizeT_pow31 : intOfSizeT (2 ^ 31) = -(2 ^ 31) := by
  unfold intOfSizeT
  norm_num

lemma BM_CBaseline_fill_slot (N i : Nat) :
    BM_CBaseline_fill N i = if i < N then some (recordAt i) else none := by
  induction N with
  | zero => simp [BM_CBaseline_fill, emptyBuf]
  | succ n ih =>
    have hstep : BM_CBaseline_fill (n + 1)
        = placementNew (BM_CBaseline_fill n) n (recordAt n) := by
      simp [BM_CBaseline_fill, List.range_succ]
    rw [hstep, placementNew]
    by_cases hin : i = n
    · subst hin
      simp
    · rw [if_neg hin, ih]
      rcases Nat.lt_trichotomy i n with hlt | heq | hgt
      · rw [if_pos hlt, if_pos (Nat.lt_succ_of_lt hlt)]
      · exact absurd heq hin
      · rw [if_neg (Nat.not_lt.mpr (Nat.le_of_lt hgt)),
            if_neg (Nat.not_lt.mpr (Nat.succ_le_of_lt hgt))]

lemma BM_CBaseline2_fill_eq : BM_CBaseline2_fill = BM_CBaseline_fill := rfl

lemma BM_CBaseline3_fill_eq : BM_CBaseline3_fill = BM_CBaseline_fill := rfl

lemma mapM_eq_map_of_all_some {α β : Type} (f : α → Option β) (g : α → β) :
    ∀ l : List α, (∀ a ∈ l, f a = some (g a)) → l.mapM f = some (l.map g) := by
  intro l
  induction l with
  | nil => intro _; rfl
  | cons a l ih =>
    intro h
    rw [List.mapM_cons, h a (List.mem_cons_self a l),
        ih fun b hb => h b (List.mem_cons_of_mem a hb)]
    rfl

lemma BM_CBaseline_collection_eq (N : Nat) :
    BM_CBaseline_collection N = some ((List.range N).map recordAt) := by
  unfold BM_CBaseline_collection bufCollection
  exact mapM_eq_map_of_all_some _ _ _ fun i hi => by
    rw [BM_CBaseline_fill_slot, if_pos (List.mem_range.mp hi)]

lemma BM_CBaseline2_collection_eq (N : Nat) :
    BM_CBaseline2_collection N = some ((List.range N).map recordAt) :=
  BM_CBaseline_collection_eq N

lemma BM_CBaseline3_collection_eq (N : Nat) :
    BM_CBaseline3_collection N = some ((List.range N).map recordAt) :=
  BM_CBaseline_collection_eq N

lemma foldl_append_eq_map (l : List Nat) (acc : List MyStruct) :
    l.foldl (fun vec i => vec ++ [recordAt i]) acc = acc ++ l.map recordAt := by
  induction l generalizing acc with
  | nil => simp
  | cons a l ih => simp [ih]

lemma BM_EmplaceBack_run_eq (N : Nat) :
    BM_EmplaceBack_run N = (List.range N).map recordAt := by
  simpa [BM_EmplaceBack_run] using foldl_append_eq_map (List.range N) []

lemma BM_PushBack_run_eq (N : Nat) :
    BM_PushBack_run N = (List.range N).map recordAt := by
  simpa [BM_PushBack_run] using foldl_append_eq_map (List.range N) []

lemma BM_FromRange_run_eq (N : Nat) :
    BM_FromRange_run N = (List.range N).map recordAt := rfl

lemma iterCollect_eq (f : Nat → MyStruct) (d : Nat) :
    ∀ cur, iterCollect f cur (cur + d) = (List.range' cur d).map f := by
  induction d with
  | zero =>
    intro cur
    unfold iterCollect
    simp
  | succ n ih =>
    intro cur
    unfold iterCollect
    rw [if_pos (by omega)]
    have h1 : cur + (n + 1) = (cur + 1) + n := by omega
    rw [h1, ih (cur + 1), List.range'_succ]
    simp

lemma BM_FromRangeIterators_run_eq (N : Nat) :
    BM_FromRangeIterators_run N = (List.range N).map recordAt := by
  have h := iterCollect_eq (fun i => MyStruct.mk (intOfSizeT i) (intOfSizeT i)) N 0
  simpa [BM_FromRangeIterators_run, List.range_eq_range'] using h

lemma map_recordAt_eq_specSeq {N : Nat} (h : N ≤ 2 ^ 31) :
    (List.range N).map recordAt = specSeq N := by
  unfold specSeq
  exact List.map_congr_left fun i hi =>
    recordAt_of_lt (lt_of_lt_of_le (List.mem_range.mp hi) h)

lemma logicalValues_instanceAt (b : Nat) (l : List MyStruct) :
    logicalValues (instanceAt b l) = l := by
  unfold logicalValues instanceAt
  rw [List.map_map]
  have hcomp : (Prod.snd ∘ fun p : Nat × MyStruct => (b + p.1, p.2)) = Prod.snd := rfl
  rw [hcomp]
  exact List.map_snd_zip _ _ (by simp)

lemma instanceAt_ne {b1 b2 : Nat} (hb : b1 ≠ b2) (x : MyStruct) (xs : List MyStruct) :
    instanceAt b1 (x :: xs) ≠ instanceAt b2 (x :: xs) := by
  unfold instanceAt
  rw [List.length_cons, List.range_succ_eq_map]
  intro h
  simp only [List.zip_cons_cons, List.map_cons, List.cons.injEq, Prod.mk.injEq] at h
  exact hb (by simpa using h.1.1)

lemma release_not_mem_map_construct (N : Nat) :
    Event.release ∉ (List.range N).map Event.construct := by
  simp

lemma release_not_mem_map_assign (N : Nat) :
    Event.release ∉ (List.range N).map Event.assign := by
  simp

lemma releasedOnce_cons_append (N : Nat) (mid : List Event)
    (hm : Event.release ∉ mid) :
    releasedOnce (Event.allocSlots N :: mid ++ [Event.release, Event.observe]) = true := by
  unfold releasedOnce
  rw [List.count_append, List.count_cons, List.count_eq_zero_of_not_mem hm]
  simp [List.count_cons]

lemma releasedOnce_CBaseline (N : Nat) :
    releasedOnce (BM_CBaseline_trace N) = true :=
  releasedOnce_cons_append N _ (release_not_mem_map_construct N)

lemma releasedOnce_CBaseline2 (N : Nat) :
    releasedOnce (BM_CBaseline2_trace N) = true :=
  releasedOnce_cons_append N _ (release_not_mem_map_assign N)

lemma noWriteAfterRelease_append (l rest : List Event) (h : Event.release ∉ l) :
    noWriteAfterRelease (l ++ Event.release :: rest) = rest.all fun e => !isWrite e := by
  induction l with
  | nil => rfl
  | cons a l ih =>
    have ha : a ≠ Event.release := fun hr => h (hr ▸ List.mem_cons_self a l)
    have hl : Event.release ∉ l := fun hr => h (List.mem_cons_of_mem a hr)
    cases a with
    | release => exact absurd rfl ha
    | allocSlots n => simpa [noWriteAfterRelease] using ih hl
    | construct i => simpa [noWriteAfterRelease] using ih hl
    | assign i => simpa [noWriteAfterRelease] using ih hl
    | observe => simpa [noWriteAfterRelease] using ih hl

lemma noWriteAfterRelease_CBaseline (N : Nat) :
    noWriteAfterRelease (BM_CBaseline_trace N) = true := by
  have hnm : Event.release ∉ Event.allocSlots N :: (List.range N).map Event.construct := by
    simp
  have h := noWriteAfterRelease_append
    (Event.allocSlots N :: (List.range N).map Event.construct) [Event.observe] hnm
  simpa [BM_CBaseline_trace, isWrite] using h

lemma noWriteAfterRelease_CBaseline2 (N : Nat) :
    noWriteAfterRelease (BM_CBaseline2_trace N) = true := by
  have hnm : Event.release ∉ Event.allocSlots N :: (List.range N).map Event.assign := by
    simp
  have h := noWriteAfterRelease_append
    (Event.allocSlots N :: (List.range N).map Event.assign) [Event.observe] hnm
  simpa [BM_CBaseline2_trace, isWrite] using h

lemma countP_writesSlot_construct (N i : Nat) :
    ((List.range N).map Event.construct).countP (writesSlot i) = if i < N then 1 else 0 := by
  rw [List.countP_map]
  have hcomp : (writesSlot i ∘ Event.construct) = fun j => j == i := rfl
  rw [hcomp]
  have hcnt : List.countP (fun j => j == i) (List.range N) = List.count i (List.range N) := rfl
  rw [hcnt]
  by_cases h : i < N
  · rw [if_pos h, List.count_eq_one_of_mem (List.nodup_range N) (List.mem_range.mpr h)]
  · rw [if_neg h, List.count_eq_zero_of_not_mem (by simpa using h)]

lemma countP_writesSlot_assign (N i : Nat) :
    ((List.range N).map Event.assign).countP (writesSlot i) = if i < N then 1 else 0 := by
  rw [List.countP_map]
  have hcomp : (writesSlot i ∘ Event.assign) = fun j => j == i := rfl
  rw [hcomp]
  have hcnt : List.countP (fun j => j == i) (List.range N) = List.count i (List.range N) := rfl
  rw [hcnt]
  by_cases h : i < N
  · rw [if_pos h, List.count_eq_one_of_mem (List.nodup_range N) (List.mem_range.mpr h)]
  · rw [if_neg h, List.count_eq_zero_of_not_mem (by simpa using h)]

lemma countP_writesSlot_CBaseline (N i : Nat) :
    (BM_CBaseline_trace N).countP (writesSlot i) = if i < N then 1 else 0 := by
  unfold BM_CBaseline_trace
  rw [List.countP_append, List.countP_cons, countP_writesSlot_construct]
  simp [writesSlot, List.countP_cons]

lemma countP_writesSlot_CBaseline2 (N i : Nat) :
    (BM_CBaseline2_trace N).countP (writesSlot i) = if i < N then 1 else 0 := by
  unfold BM_CBaseline2_trace
  rw [List.countP_append, List.countP_cons, countP_writesSlot_assign]
  simp [writesSlot, List.countP_cons]

lemma C2TraceOK_CBaseline (N i : Nat) (hi : i < N) :
    C2TraceOK (BM_CBaseline_trace N) N i := by
  refine ⟨releasedOnce_CBaseline N, noWriteAfterRelease_CBaseline N, ?_, ?_⟩
  · rw [countP_writesSlot_CBaseline, if_pos hi]
  · intro j hj
    rw [countP_writesSlot_CBaseline, if_neg (Nat.not_lt.mpr hj)]

lemma C2TraceOK_CBaseline2 (N i : Nat) (hi : i < N) :
    C2TraceOK (BM_CBaseline2_trace N) N i := by
  refine ⟨releasedOnce_CBaseline2 N, noWriteAfterRelease_CBaseline2 N, ?_, ?_⟩
  · rw [countP_writesSlot_CBaseline2, if_pos hi]
  · intro j hj
    rw [countP_writesSlot_CBaseline2, if_neg (Nat.not_lt.mpr hj)]

lemma recordAt_pow31 : recordAt (2 ^ 31) = MyStruct.mk (-(2 ^ 31)) (-(2 ^ 31)) := by
  unfold recordAt
  rw [intOfSizeT_pow31]

/-! ### Claim theorems -/

/-- C1 (amended: for every `N ≤ 2^31` rather than every non-negative `N`,
the bound forced by the `size_t → int` narrowing of the loop index): each
of the seven construction variants produces, in one timed iteration, a
collection equal to the reference sequence
`[Record(0,0), Record(1,1), ..., Record(N-1,N-1)]`, which has exactly `N`
elements with element `i` having both fields equal to `i`; in particular
at `N = 5` all seven variants yield `[(0,0),(1,1),(2,2),(3,3),(4,4)]`. -/
theorem C1_reference_sequence {N : Nat} (h : N ≤ 2 ^ 31) : C1Prop N := by
  have hmap := map_recordAt_eq_specSeq h
  refine ⟨?_, ?_, ?_, ?_, ?_, ?_, ?_, ?_, ?_, ?_⟩
  · rw [BM_CBaseline_collection_eq, hmap]
  · rw [BM_CBaseline2_collection_eq, hmap]
  · rw [BM_CBaseline3_collection_eq, hmap]
  · rw [BM_EmplaceBack_run_eq, hmap]
  · rw [BM_PushBack_run_eq, hmap]
  · rw [BM_FromRange_run_eq, hmap]
  · rw [BM_FromRangeIterators_run_eq, hmap]
  · simp [specSeq]
  · intro i hi
    simp [specSeq, List.getElem?_map, List.getElem?_range hi]
  · decide

/-- Witness for C1 at the concrete count `N = 5`. -/
theorem C1_reference_sequence_witness : 5 ≤ 2 ^ 31 ∧ C1Prop 5 :=
  ⟨by decide, C1_reference_sequence (by decide)⟩

/-- Counterexample to C1 as stated (for every non-negative `N`): at
`N = 2^31 + 1` the element at index `2^31` of the produced collection has
field `x = -(2^31)`, not `2^31` — the narrowing of the loop index wraps. -/
theorem C1_counterexample :
    (BM_EmplaceBack_run (2 ^ 31 + 1))[(2 ^ 31 : Nat)]? =
      some (MyStruct.mk (-(2 ^ 31)) (-(2 ^ 31))) ∧
    (MyStruct.mk (-(2 ^ 31 : Int)) (-(2 ^ 31 : Int))).x ≠ ((2 ^ 31 : Nat) : Int) := by
  constructor
  · rw [BM_EmplaceBack_run_eq, List.getElem?_map, List.getElem?_range (Nat.lt_succ_self _),
        Option.map_some', recordAt_pow31]
  · show -(2 ^ 31 : Int) ≠ ((2 ^ 31 : Nat) : Int)
    intro hcontra
    norm_num at hcontra

/-- C2: in every uninitialized-buffer variant (`BM_CBaseline`,
`BM_CBaseline2`, `BM_CBaseline3`) the timed loop body releases the
allocated block exactly once with no slot write after the release, every
in-range slot `i < N` is written exactly once, and no out-of-range slot is
ever written. -/
theorem C2_buffer_discipline (N i : Nat) (hi : i < N) : C2Prop N i :=
  ⟨C2TraceOK_CBaseline N i hi, C2TraceOK_CBaseline2 N i hi, C2TraceOK_CBaseline N i hi⟩

/-- Witness for C2 at `N = 3`, slot `i = 1`. -/
theorem C2_buffer_discipline_witness : 1 < 3 ∧ C2Prop 3 1 :=
  ⟨by decide, C2_buffer_discipline 3 1 (by decide)⟩

/-- C3: `BM_CBaseline3` (`std::construct_at`) is semantically identical to
`BM_CBaseline` (raw placement new): for every `N` the filled buffer, the
produced collection and the event trace (in-place construction of each
slot, no temporary) coincide. -/
theorem C3_construct_at_matches_placement (N : Nat) :
    BM_CBaseline3_fill N = BM_CBaseline_fill N ∧
    BM_CBaseline3_collection N = BM_CBaseline_collection N ∧
    BM_CBaseline3_trace N = BM_CBaseline_trace N :=
  ⟨rfl, rfl, rfl⟩

/-- C4: `BM_FromRangeIterators` (vector built from the begin/end iterator
pair of the lazy transformed range) produces, for every `N`, the same
collection as `BM_FromRange` (vector built from the range object itself),
namely the image of `[0, N)` under `i ↦ MyStruct(i, i)`. -/
theorem C4_fromrange_iterator_equiv (N : Nat) :
    BM_FromRangeIterators_run N = BM_FromRange_run N ∧
    BM_FromRange_run N = transformView recordAt (iotaView N) := by
  constructor
  · rw [BM_FromRangeIterators_run_eq, BM_FromRange_run_eq]
  · rfl

/-- C5: `BM_CBaseline2` fills the same uninitialized block as
`BM_CBaseline` but writes every slot by assignment from a materialized
temporary (its `N` slot writes are all assignment events, none an in-place
construction), and for every `N` the resulting collection equals the
raw-construct baseline's. -/
theorem C5_assignment_variant (N : Nat) :
    BM_CBaseline2_collection N = BM_CBaseline_collection N ∧
    (BM_CBaseline2_trace N).countP isAssign = N ∧
    (BM_CBaseline2_trace N).countP (fun e => isWrite e && !isAssign e) = 0 := by
  refine ⟨?_, ?_, ?_⟩
  · rw [BM_CBaseline2_collection_eq, BM_CBaseline_collection_eq]
  · unfold BM_CBaseline2_trace
    rw [List.countP_append, List.countP_cons, List.countP_map,
        show (isAssign ∘ Event.assign) = fun _ : Nat => true from rfl,
        List.countP_true]
    simp [isAssign, List.countP_cons]
  · simp [BM_CBaseline2_trace, List.countP_append, List.countP_cons, List.countP_map,
      Function.comp, isAssign, isWrite]

/-- C6: at `N = 0` every one of the seven variants yields an empty
collection without failing, and its trace contains no slot write and no
allocation of a positive number of element slots. -/
theorem C6_empty_at_zero :
    BM_CBaseline_collection 0 = some [] ∧
    BM_CBaseline2_collection 0 = some [] ∧
    BM_CBaseline3_collection 0 = some [] ∧
    BM_EmplaceBack_run 0 = [] ∧
    BM_PushBack_run 0 = [] ∧
    BM_FromRange_run 0 = [] ∧
    BM_FromRangeIterators_run 0 = [] ∧
    noSlotActivity (BM_CBaseline_trace 0) = true ∧
    noSlotActivity (BM_CBaseline2_trace 0) = true ∧
    noSlotActivity (BM_CBaseline3_trace 0) = true ∧
    noSlotActivity (BM_EmplaceBack_trace 0) = true ∧
    noSlotActivity (BM_PushBack_trace 0) = true ∧
    noSlotActivity (BM_FromRange_trace 0) = true ∧
    noSlotActivity (BM_FromRangeIterators_trace 0) = true := by
  refine ⟨by decide, by decide, by decide, by decide, by decide, by decide, ?_,
    by decide, by decide, by decide, by decide, by decide, by decide, by decide⟩
  rw [BM_FromRangeIterators_run_eq]
  rfl

/-- C7 (evaluation at the failing input `N = 1`): in the three raw-buffer
variants the `DoNotOptimize` observation does NOT occur while the pointer
denotes the produced collection — `delete[] vec` precedes
`DoNotOptimize(vec)` in the source — whereas the four vector variants do
observe the live collection.  The claim (spec §5) requires the opaque use
while the collection denotes the produced result in every variant. -/
theorem C7_observation_liveness :
    observedLive (BM_CBaseline_trace 1) = false ∧
    observedLive (BM_CBaseline2_trace 1) = false ∧
    observedLive (BM_CBaseline3_trace 1) = false ∧
    observedLive (BM_EmplaceBack_trace 1) = true ∧
    observedLive (BM_PushBack_trace 1) = true ∧
    observedLive (BM_FromRange_trace 1) = true ∧
    observedLive (BM_FromRangeIterators_trace 1) = true := by
  decide

/-- C8: the program registers exactly seven named benchmark variants, each
with item count 500000 and repetition count 20, and each variant reports
`iterations * N` items processed for throughput computation. -/
theorem C8_registration_surface :
    registrations.length = 7 ∧
    registrations.map Registration.name =
      ["BM_FromRange", "BM_FromRangeIterators", "BM_EmplaceBack", "BM_PushBack",
       "BM_CBaseline", "BM_CBaseline2", "BM_CBaseline3"] ∧
    (registrations.all fun r => r.arg == 500000 && r.repetitions == 20) = true ∧
    ∀ iterations N, itemsProcessed iterations N = iterations * N :=
  ⟨rfl, rfl, rfl, fun _ _ => rfl⟩

/-- C9: every variant is deterministic in `N` — two runs placed at
distinct buffer base addresses have element-wise equal logical
collections, even though (shown for `BM_PushBack`) the two instances
themselves are distinct. -/
theorem C9_deterministic (N b1 b2 : Nat) (hb : b1 ≠ b2) (hN : 0 < N) :
    C9Prop N b1 b2 ∧
    instanceAt b1 (BM_PushBack_run N) ≠ instanceAt b2 (BM_PushBack_run N) := by
  have hid : ∀ b : Nat,
      (fun l => logicalValues (instanceAt b l)) = fun l : List MyStruct => l :=
    fun b => funext fun l => logicalValues_instanceAt b l
  constructor
  · refine ⟨?_, ?_, ?_, ?_, ?_, ?_, ?_⟩ <;>
      first
        | rw [logicalValues_instanceAt, logicalValues_instanceAt]
        | rw [hid b1, hid b2]
  · have hlen : (BM_PushBack_run N).length = N := by
      rw [BM_PushBack_run_eq, List.length_map, List.length_range]
    have hne : BM_PushBack_run N ≠ [] := by
      intro hnil
      rw [hnil] at hlen
      simp at hlen
      omega
    obtain ⟨x, xs, hx⟩ := List.exists_cons_of_ne_nil hne
    rw [hx]
    exact instanceAt_ne hb x xs

/-- Witness for C9 at `N = 2` with base addresses 0 and 5. -/
theorem C9_deterministic_witness :
    (0 : Nat) ≠ 5 ∧ 0 < 2 ∧
    (C9Prop 2 0 5 ∧ instanceAt 0 (BM_PushBack_run 2) ≠ instanceAt 5 (BM_PushBack_run 2)) :=
  ⟨by decide, by decide, C9_deterministic 2 0 5 (by decide) (by decide)⟩

/-- C10: the `size_t → int` narrowing of the loop index is
value-preserving for every `i < 2^31` (hence for every index reached by
the registered `N = 500000`), so the record built for index `i` carries
exactly `(i, i)`; it is not value-preserving at `i = 2^31`, so the
`x = y = i` invariant holds only because all registered counts keep the
index within `int` range. -/
theorem C10_narrowing_value_preserving (i : Nat) (hi : i < 2 ^ 31) : C10Prop i := by
  refine ⟨intOfSizeT_of_lt hi, recordAt_of_lt hi, ?_, ?_⟩
  · intro N hN
    rw [BM_EmplaceBack_run_eq, List.getElem?_map, List.getElem?_range hN]
    simp [recordAt_of_lt hi]
  · rw [intOfSizeT_pow31]
    intro hcontra
    norm_num at hcontra

/-- Witness for C10 at the concrete index `i = 7`. -/
theorem C10_narrowing_witness : 7 < 2 ^ 31 ∧ C10Prop 7 :=
  ⟨by decide, C10_narrowing_value_preserving 7 (by decide)⟩
